import Mathlib

/-!
Shallow embedding of the go-dynamo batch engine (backoff.go, dynamo.go, db.go).

Modelling conventions:
* Go `float64` millisecond quantities in `FailConfig` are held as `Int`
  (all values occurring are integral: the base, the cap, and the waits drawn
  by `rand.Intn`); the attempt counter, only ever incremented by 1 and reset
  to 0, is a `Nat`.
* `rand.Intn(n)` is modelled by feeding an explicit entropy value `r : Nat`
  and computing `r % n`, which has exactly the range `[0, n)` of the source
  call (the distribution is irrelevant to the properties proved here).
* `time.Sleep` calls are recorded in a trace: `time.Sleep(time.Duration(x))`
  sleeps `x` nanoseconds and is recorded as `SleepCall.ns x`;
  `time.Sleep(time.Duration(w) * time.Millisecond)` is `SleepCall.ms w`.
* The DynamoDB service (`svc`) is modelled by a script: a list of provider
  responses, one per loop iteration, each an output structure plus an
  optional AWS error code.  The batch functions additionally return the
  trace of the requests they submitted, the sleeps performed and the number
  of backoff-scheduler invocations.
* Go maps keyed by a single table name (`RequestItems`, `UnprocessedItems`,
  `UnprocessedKeys`) are modelled as `Option (List _)`: `none` is the nil
  map (length 0) and `some l` is the single-entry map (length 1), matching
  the source's `!= nil` and `len(...) == 0` tests for the one-table calls
  made here.
* `dynamodbattribute.MarshalMap` / `UnmarshalMap` are external collaborators
  and are passed in as function parameters.
* `createAV`'s type switch is modelled on its scalar cases (nil, []byte,
  bool, int, string); the collection cases and any unmatched dynamic type
  are folded into `Value.other`, for which the model returns `none`
  (the source returns a nil pointer for unmatched types).  No claim
  depends on the collection encodings.
-/

namespace GoDynamo

/-- A DynamoDB attribute value, mirroring the `dynamodb.AttributeValue`
variants produced by `createAV` (NULL, B, BOOL, N, S). -/
inductive AttrVal where
  | null
  | binVal (b : List Nat)
  | boolVal (v : Bool)
  | numVal (s : String)
  | strVal (s : String)
  deriving DecidableEq, Repr

/-- A dynamic Go value passed to `createAV` (`interface{}`), restricted to
the scalar cases of the type switch; `other` stands for any value of a type
the modelled cases do not match. -/
inductive Value where
  | nil
  | bytes (b : List Nat)
  | boolean (v : Bool)
  | int (n : Int)
  | str (s : String)
  | other
  deriving DecidableEq, Repr

/-- An attribute map `map[string]*dynamodb.AttributeValue`; entry values are
`Option AttrVal` because the Go map can store nil pointers. -/
abbrev AttrMap := List (String × Option AttrVal)

/-- Embedding of `createAV` (dynamo.go): maps a dynamic value to an
attribute value; `nil` becomes a NULL attribute, unmatched types yield the
nil pointer (`none`). -/
def createAV : Value → Option AttrVal
  | .nil => some .null
  | .bytes b => some (.binVal b)
  | .boolean v => some (.boolVal v)
  | .int n => some (.numVal (toString n))
  | .str s => some (.strVal s)
  | .other => none

/-- Embedding of the `Table` struct (dynamo.go). -/
structure Table where
  TableName : String
  PrimaryKeyName : String
  PrimaryKeyType : String
  SortKeyName : String
  SortKeyType : String
  deriving DecidableEq, Repr

/-- Embedding of the `Query` struct (dynamo.go). -/
structure Query where
  PrimaryValue : Value
  SortValue : Value
  UpdateFieldName : String
  UpdateValue : Value
  deriving DecidableEq, Repr

/-- Embedding of `keyMaker` (dynamo.go): builds the two-entry key map from
a query's primary and sort values. -/
def keyMaker (q : Query) (t : Table) : AttrMap :=
  [(t.PrimaryKeyName, createAV q.PrimaryValue),
   (t.SortKeyName, createAV q.SortValue)]

/-- Embedding of the `FailConfig` struct (backoff.go). -/
structure FailConfig where
  Base : Int
  Cap : Int
  Attempt : Nat
  Elapsed : Int
  MaxRetriesReached : Bool
  deriving DecidableEq, Repr

/-- Embedding of `DefaultFailConfig` (backoff.go): base 50 ms, cap 60000 ms. -/
def DefaultFailConfig : FailConfig :=
  { Base := 50, Cap := 60000, Attempt := 0, Elapsed := 0, MaxRetriesReached := false }

/-- One `time.Sleep` call: `ns d` is `time.Sleep(time.Duration(d))`
(`d` nanoseconds); `ms d` is `time.Sleep(time.Duration(d) * time.Millisecond)`. -/
inductive SleepCall where
  | ns (d : Int)
  | ms (d : Int)
  deriving DecidableEq, Repr

/-- The candidate wait drawn in `ExponentialBackoff`:
`rand.Intn(int(fc.Base * math.Pow(2.0, fc.Attempt)))`, called after the
attempt counter has been incremented.  With entropy `r`, the drawn value is
`r % (Base * 2 ^ Attempt)`. -/
def backoffWait (fc : FailConfig) (r : Nat) : Int :=
  (r : Int) % (fc.Base * 2 ^ fc.Attempt)

/-- Embedding of `FailConfig.ExponentialBackoff` (backoff.go), returning the
updated configuration and the trace of sleeps performed.  The source has no
`return` after the cap-clamping branch, so that branch falls through to the
unconditional sleep and `Elapsed += wait`. -/
def ExponentialBackoff (fc : FailConfig) (r : Nat) : FailConfig × List SleepCall :=
  if fc.Elapsed = fc.Cap then
    ({ fc with MaxRetriesReached := true }, [])
  else
    let fc1 := { fc with Attempt := fc.Attempt + 1 }
    let wait := backoffWait fc1 r
    if fc1.Elapsed + wait > fc1.Cap then
      let fc2 := { fc1 with Elapsed := fc1.Cap }
      ({ fc2 with Elapsed := fc2.Elapsed + wait },
       [SleepCall.ns (wait - (wait + fc1.Elapsed - fc1.Cap)), SleepCall.ms wait])
    else
      ({ fc1 with Elapsed := fc1.Elapsed + wait }, [SleepCall.ms wait])

/-- Embedding of `FailConfig.Reset` (backoff.go). -/
def Reset (fc : FailConfig) : FailConfig :=
  { fc with Attempt := 0, Elapsed := 0, MaxRetriesReached := false }

/-- The AWS error code `dynamodb.ErrCodeInternalServerError`. -/
def ErrCodeInternalServerError : String := "InternalServerError"

/-- A Go error value as the batch functions return them: either the raw
`awserr.Error` (identified by its code) or a `fmt.Errorf` message. -/
inductive GoError where
  | awsErr (code : String)
  | errorf (msg : String)
  deriving DecidableEq, Repr

/-- A `dynamodb.WriteRequest`: either a `PutRequest` with an item map or a
`DeleteRequest` with a key map. -/
inductive WriteRequest where
  | put (item : AttrMap)
  | del (key : AttrMap)
  deriving DecidableEq, Repr

/-- A `dynamodb.BatchWriteItemOutput`, restricted to the field the source
reads: the `UnprocessedItems` map (`none` = nil map; `some l` = the
single-table entry). -/
structure WriteOutput where
  UnprocessedItems : Option (List WriteRequest)
  deriving DecidableEq, Repr

/-- A `dynamodb.BatchGetItemOutput`, restricted to the fields the source
reads: the responses for the one table queried and the `UnprocessedKeys`
map. -/
structure GetOutput where
  Responses : List AttrMap
  UnprocessedKeys : Option (List AttrMap)
  deriving DecidableEq, Repr

/-- Length of a modelled single-table Go map: the nil map has length 0, a
map with its one table entry has length 1. -/
def mapLen {α : Type} : Option (List α) → Nat
  | none => 0
  | some _ => 1

/-- Result of the error-handling block at the top of a retry-loop
iteration: either abort the call with an error, or continue to the rest of
the iteration with a (possibly updated) pending request and backoff state. -/
inductive Step (α : Type) where
  | abort (e : GoError) (fc : FailConfig) (sleeps : List SleepCall) (backoffCalls : Nat)
  | cont (input : List α) (fc : FailConfig) (draws : List Nat)
      (sleeps : List SleepCall) (backoffCalls : Nat)

/-- The `if err != nil { ... }` block of `BatchWriteCreate` /
`BatchWriteDelete` (db.go): a non-InternalServerError code returns at once
(with a per-function error shape `onNonRetryable`); an InternalServerError
with a non-nil unprocessed map replaces the pending input by the
unprocessed items and invokes the backoff scheduler, aborting with
`onMaxRetries` if it reports exhaustion. -/
def writeErrCheck (onNonRetryable onMaxRetries : String → GoError)
    (result : WriteOutput) (errOpt : Option String)
    (input : List WriteRequest) (fc : FailConfig) (draws : List Nat) :
    Step WriteRequest :=
  match errOpt with
  | none => .cont input fc draws [] 0
  | some code =>
    if code ≠ ErrCodeInternalServerError then
      .abort (onNonRetryable code) fc [] 0
    else
      match result.UnprocessedItems with
      | some unp =>
        let r := ExponentialBackoff fc (draws.headD 0)
        if r.1.MaxRetriesReached then .abort (onMaxRetries code) r.1 r.2 1
        else .cont unp r.1 draws.tail r.2 1
      | none => .cont input fc draws [] 0

/-- Terminal outcome of a batch-write call: success (`nil` error), failure
with the returned error, or the provider script ran out while the loop was
still running (the source loop would keep iterating). -/
inductive WriteOutcome where
  | ok
  | fail (e : GoError)
  | outOfScript
  deriving DecidableEq, Repr

/-- Observable result of running a batch-write call: the requests submitted
to the provider in order, the outcome, the final backoff state, the sleeps
performed and the number of backoff-scheduler invocations. -/
structure WriteRun where
  calls : List (List WriteRequest)
  outcome : WriteOutcome
  finalFc : FailConfig
  sleeps : List SleepCall
  backoffCalls : Nat
  deriving DecidableEq, Repr

/-- The `for { ... }` retry loop shared by `BatchWriteCreate` and
`BatchWriteDelete` (db.go): submit the pending input, run the error block,
then break (resetting the backoff state) when the unprocessed map has
length 0, else loop. -/
def bwLoop (onNonRetryable onMaxRetries : String → GoError) :
    List (WriteOutput × Option String) → List WriteRequest → FailConfig →
      List Nat → WriteRun
  | [], _, fc, _ => ⟨[], .outOfScript, fc, [], 0⟩
  | (result, errOpt) :: rest, input, fc, draws =>
    match writeErrCheck onNonRetryable onMaxRetries result errOpt input fc draws with
    | .abort e fc1 sl bc => ⟨[input], .fail e, fc1, sl, bc⟩
    | .cont input1 fc1 draws1 sl bc =>
      if mapLen result.UnprocessedItems = 0 then
        ⟨[input], .ok, Reset fc1, sl, bc⟩
      else
        let r := bwLoop onNonRetryable onMaxRetries rest input1 fc1 draws1
        ⟨input :: r.calls, r.outcome, r.finalFc, sl ++ r.sleeps, bc + r.backoffCalls⟩

/-- The request-building loop of `BatchWriteCreate` (db.go): nil items are
skipped, each remaining item is marshalled (a marshal error aborts the whole
build) and wrapped in a `PutRequest`. -/
def buildPutRequests {ι : Type} (marshal : ι → Except String AttrMap) :
    List (Option ι) → Except GoError (List WriteRequest)
  | [] => .ok []
  | none :: rest => buildPutRequests marshal rest
  | some item :: rest =>
    match marshal item with
    | .error m => .error (.errorf ("BatchWriteCreate failed: " ++ m))
    | .ok av =>
      match buildPutRequests marshal rest with
      | .error e => .error e
      | .ok wrs => .ok (.put av :: wrs)

/-- Embedding of `BatchWriteCreate` (db.go).  `marshal` stands for
`dynamodbattribute.MarshalMap`; `script` is the provider; `draws` feeds the
backoff scheduler's random draws. -/
def BatchWriteCreate {ι : Type} (marshal : ι → Except String AttrMap)
    (script : List (WriteOutput × Option String)) (t : Table)
    (fc : FailConfig) (draws : List Nat) (items : List (Option ι)) : WriteRun :=
  if items.length > 25 then
    ⟨[], .fail (.errorf "too many items to process"), fc, [], 0⟩
  else
    match buildPutRequests marshal items with
    | .error e => ⟨[], .fail e, fc, [], 0⟩
    | .ok wrs =>
      bwLoop (fun code => .awsErr code)
        (fun code => .errorf ("BatchWriteCreate failed: Max retries exceeded: " ++ code))
        script wrs fc draws

/-- The request-building loop of `BatchWriteDelete` (db.go): nil queries are
skipped, each remaining query's key map becomes a `DeleteRequest`. -/
def buildDeleteRequests (t : Table) : List (Option Query) → List WriteRequest
  | [] => []
  | none :: rest => buildDeleteRequests t rest
  | some q :: rest => .del (keyMaker q t) :: buildDeleteRequests t rest

/-- Embedding of `BatchWriteDelete` (db.go). -/
def BatchWriteDelete (script : List (WriteOutput × Option String)) (t : Table)
    (fc : FailConfig) (draws : List Nat) (queries : List (Option Query)) : WriteRun :=
  if queries.length > 25 then
    ⟨[], .fail (.errorf "too many items to process"), fc, [], 0⟩
  else
    bwLoop (fun code => .errorf ("BatchWriteDelete failed: " ++ code))
      (fun code => .errorf ("BatchWriteDelete failed: Max retries exceeded: " ++ code))
      script (buildDeleteRequests t queries) fc draws

/-- Terminal outcome of a `BatchGet` call: success with the accumulated
items list, failure with the returned error (the source then returns nil
items), an index-out-of-range panic on `refObjs[i]`, or script exhaustion. -/
inductive GetOutcome (ρ : Type) where
  | ok (items : List ρ)
  | fail (e : GoError)
  | indexOutOfRange
  | outOfScript
  deriving DecidableEq, Repr

/-- Observable result of running a `BatchGet` call; `slots` is the final
state of the caller-supplied destination objects (`none` = never written). -/
structure GetRun (ρ : Type) where
  calls : List (List AttrMap)
  outcome : GetOutcome ρ
  slots : List (Option ρ)
  finalFc : FailConfig
  sleeps : List SleepCall
  backoffCalls : Nat
  deriving DecidableEq, Repr

/-- Result of the per-round response loop of `BatchGet`. -/
inductive ProcResult (ρ : Type) where
  | ok (slots : List (Option ρ)) (items : List ρ)
  | fail (e : GoError) (slots : List (Option ρ))
  | indexOutOfRange (slots : List (Option ρ))
  deriving DecidableEq, Repr

/-- The `for i, r := range result.Responses[t.TableName]` loop of `BatchGet`
(db.go): the i-th response record of the round is unmarshalled into
`refObjs[i]` (an unmarshal error aborts the call; an index past the end of
`refObjs` is the source's out-of-range panic) and appended to `items`. -/
def processResponses {ρ : Type} (unmarshal : AttrMap → Except String ρ)
    (slots : List (Option ρ)) (items : List ρ) (idx : Nat) :
    List AttrMap → ProcResult ρ
  | [] => .ok slots items
  | r :: rest =>
    if idx < slots.length then
      match unmarshal r with
      | .error m =>
        .fail (.errorf ("BatchGet failed: Failed to unmarshal record, " ++ m)) slots
      | .ok rec =>
        processResponses unmarshal (slots.set idx (some rec)) (items ++ [rec])
          (idx + 1) rest
    else .indexOutOfRange slots

/-- The `if err != nil { ... }` block of `BatchGet` (db.go): a
non-InternalServerError code returns a wrapped error at once (which makes
the subsequent `ValidationException` / `RequestError` checks of the source
unreachable); an InternalServerError with a non-nil unprocessed-keys map
replaces the pending input and invokes the backoff scheduler. -/
def getErrCheck (result : GetOutput) (errOpt : Option String)
    (input : List AttrMap) (fc : FailConfig) (draws : List Nat) : Step AttrMap :=
  match errOpt with
  | none => .cont input fc draws [] 0
  | some code =>
    if code ≠ ErrCodeInternalServerError then
      .abort (.errorf ("BatchGet failed: " ++ code)) fc [] 0
    else if code = "ValidationException" then .abort (.awsErr code) fc [] 0
    else if code = "RequestError" then .abort (.awsErr code) fc [] 0
    else
      match result.UnprocessedKeys with
      | some unp =>
        let r := ExponentialBackoff fc (draws.headD 0)
        if r.1.MaxRetriesReached then
          .abort (.errorf ("BatchGet failed: Max retries exceeded: " ++ code)) r.1 r.2 1
        else .cont unp r.1 draws.tail r.2 1
      | none => .cont input fc draws [] 0

/-- The `for { ... }` retry loop of `BatchGet` (db.go): submit, run the
error block, process the round's responses into the destination slots, then
break (resetting the backoff state) when the unprocessed-keys map has
length 0, else loop. -/
def bgLoop {ρ : Type} (unmarshal : AttrMap → Except String ρ) :
    List (GetOutput × Option String) → List AttrMap → List (Option ρ) →
      List ρ → FailConfig → List Nat → GetRun ρ
  | [], _, slots, _, fc, _ => ⟨[], .outOfScript, slots, fc, [], 0⟩
  | (result, errOpt) :: rest, input, slots, items, fc, draws =>
    match getErrCheck result errOpt input fc draws with
    | .abort e fc1 sl bc => ⟨[input], .fail e, slots, fc1, sl, bc⟩
    | .cont input1 fc1 draws1 sl bc =>
      match processResponses unmarshal slots items 0 result.Responses with
      | .fail e slots1 => ⟨[input], .fail e, slots1, fc1, sl, bc⟩
      | .indexOutOfRange slots1 => ⟨[input], .indexOutOfRange, slots1, fc1, sl, bc⟩
      | .ok slots1 items1 =>
        if mapLen result.UnprocessedKeys = 0 then
          ⟨[input], .ok items1, slots1, Reset fc1, sl, bc⟩
        else
          let r := bgLoop unmarshal rest input1 slots1 items1 fc1 draws1
          ⟨input :: r.calls, r.outcome, r.slots, r.finalFc, sl ++ r.sleeps,
            bc + r.backoffCalls⟩

/-- The key-building loop of `BatchGet` (db.go): nil queries are skipped,
each remaining query's key map is appended. -/
def buildGetKeys (t : Table) : List (Option Query) → List AttrMap
  | [] => []
  | none :: rest => buildGetKeys t rest
  | some q :: rest => keyMaker q t :: buildGetKeys t rest

/-- Embedding of `BatchGet` (db.go).  `unmarshal` stands for
`dynamodbattribute.UnmarshalMap`; `refObjs` are the caller-supplied
destination slots. -/
def BatchGet {ρ : Type} (unmarshal : AttrMap → Except String ρ)
    (script : List (GetOutput × Option String)) (t : Table) (fc : FailConfig)
    (draws : List Nat) (queries : List (Option Query))
    (refObjs : List (Option ρ)) : GetRun ρ :=
  if queries.length > 100 then
    ⟨[], .fail (.errorf "too many items to process"), refObjs, fc, [], 0⟩
  else if queries.length ≠ refObjs.length then
    ⟨[], .fail (.errorf "number of queries does not match number of reference objects"),
      refObjs, fc, [], 0⟩
  else
    bgLoop unmarshal script (buildGetKeys t queries) refObjs [] fc draws

/-- Writes the records `rs` into consecutive slots starting at index `k`,
leaving all other slots unchanged (specification-side helper describing
positional assembly). -/
def writeFrom {ρ : Type} (slots : List (Option ρ)) (k : Nat) : List ρ → List (Option ρ)
  | [] => slots
  | r :: rs => writeFrom (slots.set k (some r)) (k + 1) rs

/-- Sample table used in the concrete runs below. -/
def sampleTable : Table := ⟨"tbl", "PK", "N", "SK", "N"⟩

/-- Concrete `BatchWriteCreate` run: three items, the provider's round 1
returns *no error* but leaves item 3 unprocessed, round 2 fully succeeds. -/
def c2run : WriteRun :=
  BatchWriteCreate (fun n : Nat => Except.ok [(toString n, none)])
    [({ UnprocessedItems := some [.put [("3", none)]] }, none),
     ({ UnprocessedItems := none }, none)]
    sampleTable DefaultFailConfig [] [some 1, some 2, some 3]

/-- Query with primary-key value A (= 1). -/
def qA : Query := ⟨.int 1, .nil, "", .nil⟩

/-- Query with primary-key value B (= 2). -/
def qB : Query := ⟨.int 2, .nil, "", .nil⟩

/-- Query with primary-key value C (= 3). -/
def qC : Query := ⟨.int 3, .nil, "", .nil⟩

/-- The key map of query A. -/
def kA : AttrMap := keyMaker qA sampleTable

/-- The key map of query B. -/
def kB : AttrMap := keyMaker qB sampleTable

/-- The key map of query C. -/
def kC : AttrMap := keyMaker qC sampleTable

/-- Concrete `BatchGet` run for the spec's read-reassembly scenario:
request keys [A,B,C]; round 1 returns the records [C,A] with B
unprocessed (no error); round 2 returns [B].  Records are modelled as the
key maps themselves, so a record's identity is visible, and `unmarshal` is
the identity decode. -/
def c3run : GetRun AttrMap :=
  BatchGet (fun m => Except.ok m)
    [({ Responses := [kC, kA], UnprocessedKeys := some [kB] }, none),
     ({ Responses := [kB], UnprocessedKeys := none }, none)]
    sampleTable DefaultFailConfig [] [some qA, some qB, some qC] [none, none, none]

end GoDynamo

namespace GoDynamo

/-- C6: when `Elapsed = Cap` on entry, `ExponentialBackoff` sets the
exhausted flag, performs no sleep, and leaves the attempt counter and the
elapsed total unchanged. -/
theorem backoff_exhausted_entry_no_sleep (fc : FailConfig) (r : Nat)
    (h : fc.Elapsed = fc.Cap) :
    (ExponentialBackoff fc r).1.MaxRetriesReached = true ∧
    (ExponentialBackoff fc r).2 = [] ∧
    (ExponentialBackoff fc r).1.Attempt = fc.Attempt ∧
    (ExponentialBackoff fc r).1.Elapsed = fc.Elapsed := by
  simp [ExponentialBackoff, h]

/-- Concrete instance of `backoff_exhausted_entry_no_sleep`: elapsed 60000
against cap 60000 with attempt 3 and draw 7. -/
theorem backoff_exhausted_entry_no_sleep_witness :
    (FailConfig.mk 50 60000 3 60000 false).Elapsed
        = (FailConfig.mk 50 60000 3 60000 false).Cap ∧
    ((ExponentialBackoff (FailConfig.mk 50 60000 3 60000 false) 7).1.MaxRetriesReached = true ∧
     (ExponentialBackoff (FailConfig.mk 50 60000 3 60000 false) 7).2 = [] ∧
     (ExponentialBackoff (FailConfig.mk 50 60000 3 60000 false) 7).1.Attempt = 3 ∧
     (ExponentialBackoff (FailConfig.mk 50 60000 3 60000 false) 7).1.Elapsed = 60000) :=
  ⟨rfl, backoff_exhausted_entry_no_sleep _ 7 rfl⟩

/-- C1 is false on the code: starting from elapsed 59999 against cap 60000
with draw 5 (candidate wait 5, so elapsed + candidate overshoots the cap),
the call ends with `Elapsed = 60005`, exceeding the cap, and performs the
clamped sleep *and then also* the full candidate sleep — the clamping
branch of the source lacks a `return`, so execution falls through to
`time.Sleep(wait ms)` and `Elapsed += wait`. -/
theorem backoff_overshoot_exceeds_cap :
    (ExponentialBackoff ⟨50, 60000, 0, 59999, false⟩ 5).1.Elapsed = 60005 ∧
    ¬ (ExponentialBackoff ⟨50, 60000, 0, 59999, false⟩ 5).1.Elapsed
        ≤ (FailConfig.mk 50 60000 0 59999 false).Cap ∧
    (ExponentialBackoff ⟨50, 60000, 0, 59999, false⟩ 5).2 =
      [SleepCall.ns 1, SleepCall.ms 5] := by
  decide

/-- C8: on a non-exhausted call with positive base, the candidate wait is
an integer in `[0, base * 2 ^ n)` where `n` is the attempt counter after
the increment, and the attempt counter never decreases. -/
theorem backoff_wait_bounded_attempt_monotone (fc : FailConfig) (r : Nat)
    (hne : fc.Elapsed ≠ fc.Cap) (hb : 0 < fc.Base) :
    0 ≤ backoffWait { fc with Attempt := fc.Attempt + 1 } r ∧
    backoffWait { fc with Attempt := fc.Attempt + 1 } r
        < fc.Base * 2 ^ (fc.Attempt + 1) ∧
    (ExponentialBackoff fc r).1.Attempt = fc.Attempt + 1 ∧
    fc.Attempt ≤ (ExponentialBackoff fc r).1.Attempt := by
  have hM : (0 : Int) < fc.Base * 2 ^ (fc.Attempt + 1) :=
    mul_pos hb (pow_pos (by norm_num) _)
  have hw : backoffWait { fc with Attempt := fc.Attempt + 1 } r
      = (r : Int) % (fc.Base * 2 ^ (fc.Attempt + 1)) := rfl
  have hA : (ExponentialBackoff fc r).1.Attempt = fc.Attempt + 1 := by
    unfold ExponentialBackoff
    rw [if_neg hne]
    dsimp only
    split <;> rfl
  refine ⟨?_, ?_, hA, by omega⟩
  · rw [hw]; exact Int.emod_nonneg _ (ne_of_gt hM)
  · rw [hw]; exact Int.emod_lt_of_pos _ hM

/-- Concrete instance of `backoff_wait_bounded_attempt_monotone`: the
default configuration (elapsed 0, cap 60000, base 50) with draw 123. -/
theorem backoff_wait_bounded_attempt_monotone_witness :
    (DefaultFailConfig.Elapsed ≠ DefaultFailConfig.Cap ∧ 0 < DefaultFailConfig.Base) ∧
    (0 ≤ backoffWait { DefaultFailConfig with Attempt := DefaultFailConfig.Attempt + 1 } 123 ∧
     backoffWait { DefaultFailConfig with Attempt := DefaultFailConfig.Attempt + 1 } 123
        < DefaultFailConfig.Base * 2 ^ (DefaultFailConfig.Attempt + 1) ∧
     (ExponentialBackoff DefaultFailConfig 123).1.Attempt = DefaultFailConfig.Attempt + 1 ∧
     DefaultFailConfig.Attempt ≤ (ExponentialBackoff DefaultFailConfig 123).1.Attempt) :=
  ⟨⟨by decide, by decide⟩,
   backoff_wait_bounded_attempt_monotone DefaultFailConfig 123 (by decide) (by decide)⟩

end GoDynamo

namespace GoDynamo

/-- C2 is false on the code: in `c2run`, round 1 leaves item 3 unprocessed
but returns no error, and the source only replaces the pending input inside
the `err != nil` / InternalServerError branch, so round 2 resubmits the
original full batch — not the unprocessed subset — and the backoff
scheduler is never invoked. -/
theorem batchwrite_errorless_unprocessed_resubmits_original :
    c2run.calls =
      [[.put [("1", none)], .put [("2", none)], .put [("3", none)]],
       [.put [("1", none)], .put [("2", none)], .put [("3", none)]]] ∧
    c2run.calls.getD 1 [] ≠ [.put [("3", none)]] ∧
    c2run.backoffCalls = 0 ∧ c2run.sleeps = [] ∧ c2run.outcome = .ok := by
  decide

/-- C3 is false on the code: in `c3run` (keys [A,B,C]; provider returns
[C,A] in round 1 with B unprocessed, then [B] in round 2), the destination
slots end up [B, A, unwritten] — round 1 writes C into slot 0 and A into
slot 1, and round 2's index restarts at 0 so B overwrites slot 0 — instead
of the identity-matched [A, B, C]; the returned items are in response
order [C, A, B]. -/
theorem batchget_slots_not_identity_matched :
    c3run.slots = [some kB, some kA, none] ∧
    c3run.slots ≠ [some kA, some kB, some kC] ∧
    c3run.outcome = .ok [kC, kA, kB] := by
  decide

end GoDynamo

namespace GoDynamo

/-- Helper: with an always-succeeding unmarshal, the response loop of
`BatchGet` writes the i-th record of the round into slot `idx + i` and
appends the decoded records to `items` in response order. -/
theorem processResponses_positional {ρ : Type} (dec : AttrMap → ρ)
    (resps : List AttrMap) :
    ∀ (slots : List (Option ρ)) (items : List ρ) (idx : Nat),
      idx + resps.length ≤ slots.length →
      processResponses (fun m => Except.ok (dec m)) slots items idx resps =
        .ok (writeFrom slots idx (resps.map dec)) (items ++ resps.map dec) := by
  induction resps with
  | nil => intro slots items idx _; simp [processResponses, writeFrom]
  | cons r rest ih =>
    intro slots items idx h
    have hlt : idx < slots.length := by simp at h; omega
    have h2 : (idx + 1) + rest.length ≤ (slots.set idx (some (dec r))).length := by
      simp at h ⊢; omega
    have hrec := ih (slots.set idx (some (dec r))) (items ++ [dec r]) (idx + 1) h2
    simp [processResponses, hlt, hrec, writeFrom]

/-- C3 amended: in a round with no provider error, the records are decoded
*positionally*: the i-th record of the round's response list goes to
destination slot i (not to the slot whose key matches the record), and the
returned items follow response order.  Stated for a one-round run; the
per-round index restart is exhibited by `batchget_slots_not_identity_matched`. -/
theorem batchget_positional_assembly {ρ : Type} (dec : AttrMap → ρ)
    (out : GetOutput) (rest : List (GetOutput × Option String)) (t : Table)
    (fc : FailConfig) (draws : List Nat) (queries : List (Option Query))
    (refObjs : List (Option ρ))
    (hlen : ¬ queries.length > 100) (heq : queries.length = refObjs.length)
    (hresp : out.Responses.length ≤ refObjs.length)
    (hunp : out.UnprocessedKeys = none) :
    BatchGet (fun m => Except.ok (dec m)) ((out, none) :: rest) t fc draws
        queries refObjs =
      ⟨[buildGetKeys t queries], .ok (out.Responses.map dec),
        writeFrom refObjs 0 (out.Responses.map dec), Reset fc, [], 0⟩ := by
  have hp := processResponses_positional dec out.Responses refObjs [] 0
    (by simpa using hresp)
  simp [BatchGet, bgLoop, getErrCheck, hlen, heq, hp, hunp, mapLen]
  omega

/-- Concrete instance of `batchget_positional_assembly`: one key, one
response record, identity decode. -/
theorem batchget_positional_assembly_witness :
    (¬ ([some qA] : List (Option Query)).length > 100 ∧
     ([some qA] : List (Option Query)).length = ([none] : List (Option AttrMap)).length ∧
     (GetOutput.mk [kA] none).Responses.length ≤ ([none] : List (Option AttrMap)).length ∧
     (GetOutput.mk [kA] none).UnprocessedKeys = none) ∧
    BatchGet (fun m => Except.ok m) [(GetOutput.mk [kA] none, none)] sampleTable
        DefaultFailConfig [] [some qA] [none] =
      ⟨[buildGetKeys sampleTable [some qA]], .ok [kA],
        writeFrom [none] 0 [kA], Reset DefaultFailConfig, [], 0⟩ :=
  ⟨⟨by decide, by decide, by decide, rfl⟩,
   batchget_positional_assembly (fun m => m) (GetOutput.mk [kA] none) []
     sampleTable DefaultFailConfig [] [some qA] [none]
     (by decide) (by decide) (by decide) rfl⟩

end GoDynamo

namespace GoDynamo

/-- C4: inputs above the batch size limits (more than 25 items for
`BatchWriteCreate` / `BatchWriteDelete`, more than 100 keys for `BatchGet`)
fail with the "too many items to process" error with zero provider calls,
zero sleeps, no backoff invocation, and the backoff state and destination
slots untouched. -/
theorem batch_size_limit_fails_fast {ι ρ : Type}
    (marshal : ι → Except String AttrMap) (unmarshal : AttrMap → Except String ρ)
    (scriptW scriptD : List (WriteOutput × Option String))
    (scriptG : List (GetOutput × Option String)) (t : Table) (fc : FailConfig)
    (draws : List Nat) (items : List (Option ι))
    (queries queriesG : List (Option Query)) (refObjs : List (Option ρ))
    (h1 : items.length > 25) (h2 : queries.length > 25)
    (h3 : queriesG.length > 100) :
    BatchWriteCreate marshal scriptW t fc draws items =
      ⟨[], .fail (.errorf "too many items to process"), fc, [], 0⟩ ∧
    BatchWriteDelete scriptD t fc draws queries =
      ⟨[], .fail (.errorf "too many items to process"), fc, [], 0⟩ ∧
    BatchGet unmarshal scriptG t fc draws queriesG refObjs =
      ⟨[], .fail (.errorf "too many items to process"), refObjs, fc, [], 0⟩ := by
  refine ⟨?_, ?_, ?_⟩
  · simp [BatchWriteCreate, h1]
  · simp [BatchWriteDelete, h2]
  · simp [BatchGet, h3]

/-- Concrete instance of `batch_size_limit_fails_fast`: 26 write items,
26 delete queries, 101 read keys. -/
theorem batch_size_limit_fails_fast_witness :
    ((List.replicate 26 (none : Option Nat)).length > 25 ∧
     (List.replicate 26 (none : Option Query)).length > 25 ∧
     (List.replicate 101 (none : Option Query)).length > 100) ∧
    (BatchWriteCreate (fun n : Nat => Except.ok [(toString n, none)]) [] sampleTable
        DefaultFailConfig [] (List.replicate 26 none) =
      ⟨[], .fail (.errorf "too many items to process"), DefaultFailConfig, [], 0⟩ ∧
    BatchWriteDelete [] sampleTable DefaultFailConfig [] (List.replicate 26 none) =
      ⟨[], .fail (.errorf "too many items to process"), DefaultFailConfig, [], 0⟩ ∧
    BatchGet (fun m => Except.ok m) [] sampleTable DefaultFailConfig []
        (List.replicate 101 none) [] =
      ⟨[], .fail (.errorf "too many items to process"), [], DefaultFailConfig, [], 0⟩) :=
  ⟨⟨by decide, by decide, by decide⟩,
   batch_size_limit_fails_fast (fun n : Nat => Except.ok [(toString n, none)])
     (fun m => Except.ok m) [] [] [] sampleTable DefaultFailConfig []
     (List.replicate 26 none) (List.replicate 26 none) (List.replicate 101 none) []
     (by decide) (by decide) (by decide)⟩

/-- C9: a `BatchGet` call whose query list and reference-object list have
different lengths returns an error (the nil-result path) with zero
provider calls. -/
theorem batchget_length_mismatch_fails_fast {ρ : Type}
    (unmarshal : AttrMap → Except String ρ)
    (script : List (GetOutput × Option String)) (t : Table) (fc : FailConfig)
    (draws : List Nat) (queries : List (Option Query))
    (refObjs : List (Option ρ)) (h : queries.length ≠ refObjs.length) :
    (∃ e, (BatchGet unmarshal script t fc draws queries refObjs).outcome = .fail e) ∧
    (BatchGet unmarshal script t fc draws queries refObjs).calls = [] := by
  unfold BatchGet
  by_cases h100 : queries.length > 100
  · simp [h100]
  · simp [h100, h]

/-- Concrete instance of `batchget_length_mismatch_fails_fast`: one query,
two reference objects. -/
theorem batchget_length_mismatch_fails_fast_witness :
    (([some qA] : List (Option Query)).length
        ≠ ([none, none] : List (Option AttrMap)).length) ∧
    ((∃ e, (BatchGet (fun m => Except.ok m) [] sampleTable DefaultFailConfig []
        [some qA] [none, none]).outcome = .fail e) ∧
     (BatchGet (fun m => Except.ok m) [] sampleTable DefaultFailConfig []
        [some qA] [none, none]).calls = []) :=
  ⟨by decide,
   batchget_length_mismatch_fails_fast (fun m => Except.ok m) [] sampleTable
     DefaultFailConfig [] [some qA] [none, none] (by decide)⟩

end GoDynamo

namespace GoDynamo

/-- C5: a provider error whose code is not InternalServerError makes each
batch function return after exactly one provider call, with no backoff
invocation and no sleep, leaving the backoff state untouched (whatever its
remaining budget); `BatchWriteCreate` returns the original error verbatim,
`BatchWriteDelete` and `BatchGet` return a wrapped message that carries the
original error. -/
theorem nonretryable_error_aborts_immediately {ι ρ : Type}
    (marshal : ι → Except String AttrMap) (unmarshal : AttrMap → Except String ρ)
    (code : String) (hc : code ≠ ErrCodeInternalServerError)
    (outW outD : WriteOutput) (outG : GetOutput)
    (restW restD : List (WriteOutput × Option String))
    (restG : List (GetOutput × Option String)) (t : Table) (fc : FailConfig)
    (draws : List Nat) (items : List (Option ι)) (wrs : List WriteRequest)
    (hlenC : ¬ items.length > 25) (hbuild : buildPutRequests marshal items = .ok wrs)
    (queries : List (Option Query)) (hlenD : ¬ queries.length > 25)
    (queriesG : List (Option Query)) (refObjs : List (Option ρ))
    (hlenG : ¬ queriesG.length > 100) (heq : queriesG.length = refObjs.length) :
    BatchWriteCreate marshal ((outW, some code) :: restW) t fc draws items =
      ⟨[wrs], .fail (.awsErr code), fc, [], 0⟩ ∧
    BatchWriteDelete ((outD, some code) :: restD) t fc draws queries =
      ⟨[buildDeleteRequests t queries],
        .fail (.errorf ("BatchWriteDelete failed: " ++ code)), fc, [], 0⟩ ∧
    BatchGet unmarshal ((outG, some code) :: restG) t fc draws queriesG refObjs =
      ⟨[buildGetKeys t queriesG],
        .fail (.errorf ("BatchGet failed: " ++ code)), refObjs, fc, [], 0⟩ := by
  refine ⟨?_, ?_, ?_⟩
  · simp [BatchWriteCreate, hlenC, hbuild, bwLoop, writeErrCheck, hc]
  · simp [BatchWriteDelete, hlenD, bwLoop, writeErrCheck, hc]
  · simp [BatchGet, hlenG, heq, bgLoop, getErrCheck, hc]
    omega

/-- Concrete instance of `nonretryable_error_aborts_immediately`: a
`ValidationException` on round 1 against a backoff state with its whole
budget remaining. -/
theorem nonretryable_error_aborts_immediately_witness :
    (("ValidationException" : String) ≠ ErrCodeInternalServerError ∧
     ¬ ([some 1] : List (Option Nat)).length > 25 ∧
     buildPutRequests (fun n : Nat => Except.ok [(toString n, none)]) [some 1] =
       .ok [.put [("1", none)]] ∧
     ¬ ([some qA] : List (Option Query)).length > 25 ∧
     ¬ ([some qA] : List (Option Query)).length > 100 ∧
     ([some qA] : List (Option Query)).length = ([none] : List (Option AttrMap)).length) ∧
    (BatchWriteCreate (fun n : Nat => Except.ok [(toString n, none)])
        [(WriteOutput.mk none, some "ValidationException")] sampleTable
        DefaultFailConfig [] [some 1] =
      ⟨[[.put [("1", none)]]], .fail (.awsErr "ValidationException"),
        DefaultFailConfig, [], 0⟩ ∧
    BatchWriteDelete [(WriteOutput.mk none, some "ValidationException")] sampleTable
        DefaultFailConfig [] [some qA] =
      ⟨[buildDeleteRequests sampleTable [some qA]],
        .fail (.errorf "BatchWriteDelete failed: ValidationException"),
        DefaultFailConfig, [], 0⟩ ∧
    BatchGet (fun m => Except.ok m) [(GetOutput.mk [] none, some "ValidationException")]
        sampleTable DefaultFailConfig [] [some qA] [none] =
      ⟨[buildGetKeys sampleTable [some qA]],
        .fail (.errorf "BatchGet failed: ValidationException"),
        [none], DefaultFailConfig, [], 0⟩) :=
  ⟨⟨by decide, by decide, rfl, by decide, by decide, by decide⟩,
   nonretryable_error_aborts_immediately (fun n : Nat => Except.ok [(toString n, none)])
     (fun m => Except.ok m) "ValidationException" (by decide)
     (WriteOutput.mk none) (WriteOutput.mk none) (GetOutput.mk [] none) [] [] []
     sampleTable DefaultFailConfig [] [some 1] [.put [("1", none)]]
     (by decide) rfl [some qA] (by decide) [some qA] [none]
     (by decide) (by decide)⟩

/-- C7: when round 1 returns no error and an empty (nil) unprocessed set,
each batch function issues exactly one provider call carrying the full
built batch, succeeds, performs no sleep, and resets the backoff state
(attempt, elapsed, exhausted zeroed) before returning. -/
theorem single_round_success_resets_backoff {ι ρ : Type}
    (marshal : ι → Except String AttrMap) (dec : AttrMap → ρ)
    (outW outD : WriteOutput) (outG : GetOutput)
    (hW : outW.UnprocessedItems = none) (hD : outD.UnprocessedItems = none)
    (hG : outG.UnprocessedKeys = none)
    (restW restD : List (WriteOutput × Option String))
    (restG : List (GetOutput × Option String)) (t : Table) (fc : FailConfig)
    (draws : List Nat) (items : List (Option ι)) (wrs : List WriteRequest)
    (hlenC : ¬ items.length > 25) (hbuild : buildPutRequests marshal items = .ok wrs)
    (queries : List (Option Query)) (hlenD : ¬ queries.length > 25)
    (queriesG : List (Option Query)) (refObjs : List (Option ρ))
    (hlenG : ¬ queriesG.length > 100) (heq : queriesG.length = refObjs.length)
    (hresp : outG.Responses.length ≤ refObjs.length) :
    BatchWriteCreate marshal ((outW, none) :: restW) t fc draws items =
      ⟨[wrs], .ok, Reset fc, [], 0⟩ ∧
    BatchWriteDelete ((outD, none) :: restD) t fc draws queries =
      ⟨[buildDeleteRequests t queries], .ok, Reset fc, [], 0⟩ ∧
    BatchGet (fun m => Except.ok (dec m)) ((outG, none) :: restG) t fc draws
        queriesG refObjs =
      ⟨[buildGetKeys t queriesG], .ok (outG.Responses.map dec),
        writeFrom refObjs 0 (outG.Responses.map dec), Reset fc, [], 0⟩ := by
  have hp := processResponses_positional dec outG.Responses refObjs [] 0
    (by simpa using hresp)
  refine ⟨?_, ?_, ?_⟩
  · simp [BatchWriteCreate, hlenC, hbuild, bwLoop, writeErrCheck, hW, mapLen]
  · simp [BatchWriteDelete, hlenD, bwLoop, writeErrCheck, hD, mapLen]
  · simp [BatchGet, hlenG, heq, bgLoop, getErrCheck, hp, hG, mapLen]
    omega

/-- Concrete instance of `single_round_success_resets_backoff`: one item /
one query per function, provider succeeds in round 1, starting from a
partially consumed backoff state (attempt 2, elapsed 300). -/
theorem single_round_success_resets_backoff_witness :
    ((WriteOutput.mk none).UnprocessedItems = none ∧
     (GetOutput.mk [kA] none).UnprocessedKeys = none ∧
     ¬ ([some 1] : List (Option Nat)).length > 25 ∧
     buildPutRequests (fun n : Nat => Except.ok [(toString n, none)]) [some 1] =
       .ok [.put [("1", none)]] ∧
     ¬ ([some qA] : List (Option Query)).length > 25 ∧
     ¬ ([some qA] : List (Option Query)).length > 100 ∧
     ([some qA] : List (Option Query)).length = ([none] : List (Option AttrMap)).length ∧
     (GetOutput.mk [kA] none).Responses.length ≤ ([none] : List (Option AttrMap)).length) ∧
    (BatchWriteCreate (fun n : Nat => Except.ok [(toString n, none)])
        [(WriteOutput.mk none, none)] sampleTable ⟨50, 60000, 2, 300, false⟩ [] [some 1] =
      ⟨[[.put [("1", none)]]], .ok, Reset ⟨50, 60000, 2, 300, false⟩, [], 0⟩ ∧
    BatchWriteDelete [(WriteOutput.mk none, none)] sampleTable
        ⟨50, 60000, 2, 300, false⟩ [] [some qA] =
      ⟨[buildDeleteRequests sampleTable [some qA]], .ok,
        Reset ⟨50, 60000, 2, 300, false⟩, [], 0⟩ ∧
    BatchGet (fun m => Except.ok m) [(GetOutput.mk [kA] none, none)] sampleTable
        ⟨50, 60000, 2, 300, false⟩ [] [some qA] [none] =
      ⟨[buildGetKeys sampleTable [some qA]], .ok [kA],
        writeFrom [none] 0 [kA], Reset ⟨50, 60000, 2, 300, false⟩, [], 0⟩) :=
  ⟨⟨rfl, rfl, by decide, rfl, by decide, by decide, by decide, by decide⟩,
   single_round_success_resets_backoff (fun n : Nat => Except.ok [(toString n, none)])
     (fun m => m) (WriteOutput.mk none) (WriteOutput.mk none) (GetOutput.mk [kA] none)
     rfl rfl rfl [] [] [] sampleTable ⟨50, 60000, 2, 300, false⟩ [] [some 1]
     [.put [("1", none)]] (by decide) rfl [some qA] (by decide)
     [some qA] [none] (by decide) (by decide) (by decide)⟩

end GoDynamo

namespace GoDynamo

/-- Helper: the put-request builder ignores nil entries — building from a
list is the same as building from its non-nil entries. -/
theorem buildPutRequests_skips_none {ι : Type} (marshal : ι → Except String AttrMap) :
    ∀ items : List (Option ι),
      buildPutRequests marshal items
        = buildPutRequests marshal ((items.filterMap id).map some) := by
  intro items
  induction items with
  | nil => rfl
  | cons x rest ih =>
    cases x with
    | none => simpa [buildPutRequests] using ih
    | some it =>
      cases hm : marshal it <;> simp [buildPutRequests, hm, ih]

/-- Helper: a successful put-request build has one request per non-nil item. -/
theorem buildPutRequests_length {ι : Type} (marshal : ι → Except String AttrMap) :
    ∀ (items : List (Option ι)) (wrs : List WriteRequest),
      buildPutRequests marshal items = .ok wrs →
      wrs.length = (items.filterMap id).length := by
  intro items
  induction items with
  | nil => intro wrs h; cases h; rfl
  | cons x rest ih =>
    intro wrs h
    cases x with
    | none =>
      simp only [buildPutRequests] at h
      simpa using ih wrs h
    | some it =>
      simp only [buildPutRequests] at h
      cases hm : marshal it with
      | error m => rw [hm] at h; cases h
      | ok av =>
        rw [hm] at h
        cases hr : buildPutRequests marshal rest with
        | error e => rw [hr] at h; cases h
        | ok ws =>
          rw [hr] at h
          cases h
          simpa using ih ws hr

/-- Helper: the delete-request builder maps exactly the non-nil queries. -/
theorem buildDeleteRequests_filterMap (t : Table) :
    ∀ queries : List (Option Query),
      buildDeleteRequests t queries
        = (queries.filterMap id).map (fun q => .del (keyMaker q t)) := by
  intro queries
  induction queries with
  | nil => rfl
  | cons x rest ih => cases x <;> simp [buildDeleteRequests, ih]

/-- Helper: the read-key builder maps exactly the non-nil queries. -/
theorem buildGetKeys_filterMap (t : Table) :
    ∀ queries : List (Option Query),
      buildGetKeys t queries = (queries.filterMap id).map (fun q => keyMaker q t) := by
  intro queries
  induction queries with
  | nil => rfl
  | cons x rest ih => cases x <;> simp [buildGetKeys, ih]

/-- Helper: whenever the retry loop runs at least one round, the first
request submitted is exactly the batch it was given. -/
theorem bwLoop_first_call (onNonRetryable onMaxRetries : String → GoError)
    (out : WriteOutput) (errOpt : Option String)
    (rest : List (WriteOutput × Option String)) (input : List WriteRequest)
    (fc : FailConfig) (draws : List Nat) :
    (bwLoop onNonRetryable onMaxRetries ((out, errOpt) :: rest) input fc draws).calls.headD []
      = input := by
  unfold bwLoop
  split
  · rfl
  · split <;> rfl

/-- C10: nil entries are silently skipped by all three request builders —
the built batch equals the batch built from the non-nil entries alone, with
one request per non-nil entry and no error contributed by the skipped
entries — and the batch actually submitted in round 1 is that nil-free
batch. -/
theorem nil_entries_silently_skipped {ι : Type}
    (marshal : ι → Except String AttrMap) (t : Table)
    (items : List (Option ι)) (queries : List (Option Query))
    (wrs : List WriteRequest) (hok : buildPutRequests marshal items = .ok wrs)
    (s : WriteOutput × Option String) (restS : List (WriteOutput × Option String))
    (fc : FailConfig) (draws : List Nat) (hq : ¬ queries.length > 25) :
    buildPutRequests marshal items
        = buildPutRequests marshal ((items.filterMap id).map some) ∧
    wrs.length = (items.filterMap id).length ∧
    buildDeleteRequests t queries
        = (queries.filterMap id).map (fun q => .del (keyMaker q t)) ∧
    buildGetKeys t queries = (queries.filterMap id).map (fun q => keyMaker q t) ∧
    (BatchWriteDelete (s :: restS) t fc draws queries).calls.headD []
        = (queries.filterMap id).map (fun q => .del (keyMaker q t)) := by
  refine ⟨buildPutRequests_skips_none marshal items,
    buildPutRequests_length marshal items wrs hok,
    buildDeleteRequests_filterMap t queries,
    buildGetKeys_filterMap t queries, ?_⟩
  obtain ⟨out, errOpt⟩ := s
  rw [BatchWriteDelete, if_neg hq, bwLoop_first_call,
    buildDeleteRequests_filterMap t queries]

/-- Concrete instance of `nil_entries_silently_skipped`: item lists with
nil entries interleaved ([some 1, none, some 2] and
[none, some qA, none, some qB]). -/
theorem nil_entries_silently_skipped_witness :
    (buildPutRequests (fun n : Nat => Except.ok [(toString n, none)])
        [some 1, none, some 2] = .ok [.put [("1", none)], .put [("2", none)]] ∧
     ¬ ([none, some qA, none, some qB] : List (Option Query)).length > 25) ∧
    (buildPutRequests (fun n : Nat => Except.ok [(toString n, none)])
        [some 1, none, some 2]
      = buildPutRequests (fun n : Nat => Except.ok [(toString n, none)])
          ((([some 1, none, some 2] : List (Option Nat)).filterMap id).map some) ∧
    ([WriteRequest.put [("1", none)], WriteRequest.put [("2", none)]]).length
      = (([some 1, none, some 2] : List (Option Nat)).filterMap id).length ∧
    buildDeleteRequests sampleTable [none, some qA, none, some qB]
      = (([none, some qA, none, some qB] : List (Option Query)).filterMap id).map
          (fun q => .del (keyMaker q sampleTable)) ∧
    buildGetKeys sampleTable [none, some qA, none, some qB]
      = (([none, some qA, none, some qB] : List (Option Query)).filterMap id).map
          (fun q => keyMaker q sampleTable) ∧
    (BatchWriteDelete [(WriteOutput.mk none, none)] sampleTable DefaultFailConfig []
        [none, some qA, none, some qB]).calls.headD []
      = (([none, some qA, none, some qB] : List (Option Query)).filterMap id).map
          (fun q => .del (keyMaker q sampleTable))) :=
  ⟨⟨rfl, by decide⟩,
   nil_entries_silently_skipped (fun n : Nat => Except.ok [(toString n, none)])
     sampleTable [some 1, none, some 2] [none, some qA, none, some qB]
     [.put [("1", none)], .put [("2", none)]] rfl
     (WriteOutput.mk none, none) [] DefaultFailConfig [] (by decide)⟩

end GoDynamo
